import Mathlib

/-!
Shallow embedding of the inventory fulfillment core of the 4mg-back
repository: the dealer-request lifecycle (src/unnamed/part_004, the
dealer-requests router) and the FIFO stock-allocation engine
(src/unnamed/part_008, the stock router), together with the mongoose
schema validation of src/models/DealerStock.js, src/models/Product.js,
src/models/DealerRequest.js and src/models/StockAllocation.js.

Quantities are JavaScript numbers, embedded as rationals, so that the
validation checks of the routes (typeof strips == number, strips < 1)
are reflected faithfully: any rational at least 1 passes them.
Document ids are naturals handed out by a counter; creation timestamps
are embedded by the same monotone counter, which preserves the
creation order that Mongo sort by createdAt ascending observes.
Authentication and role middleware are outside the embedded core and
are not modelled; each operation takes the already-authenticated
caller id where the route uses it.
-/

namespace FourMG

/-- Request status enum of src/models/DealerRequest.js. -/
inductive RequestStatus where
  | pending
  | approved
  | cancelled
deriving Repr, DecidableEq

/-- Payment status enum of src/models/DealerRequest.js. -/
inductive PaymentStatus where
  | pending
  | paid
  | verified
  | rejected
deriving Repr, DecidableEq

/-- Product document (src/models/Product.js), restricted to the fields
the embedded core reads: the id and the central stock counter. -/
structure Product where
  id : Nat
  stock : Rat
deriving Repr, DecidableEq

/-- DealerRequest document (src/models/DealerRequest.js), restricted to
the fields the embedded core reads and writes. -/
structure DealerRequest where
  id : Nat
  dealer : Nat
  product : Nat
  strips : Rat
  status : RequestStatus
  paymentStatus : PaymentStatus
  receiptImage : Option Nat
  paymentVerifiedBy : Option Nat
  processedBy : Option Nat
  notes : String
deriving Repr, DecidableEq

/-- DealerStock document (src/models/DealerStock.js): one lot of
entitlement created by an approved request. -/
structure DealerStock where
  id : Nat
  dealer : Nat
  product : Nat
  totalStrips : Rat
  allocatedStrips : Rat
  availableStrips : Rat
  sourceRequest : Nat
  createdAt : Nat
deriving Repr, DecidableEq

/-- StockAllocation document (src/models/StockAllocation.js): units of a
lot pushed from a dealer to a salesman. -/
structure StockAllocation where
  id : Nat
  dealer : Nat
  salesman : Nat
  product : Nat
  strips : Rat
  dealerStock : Nat
  notes : String
deriving Repr, DecidableEq

/-- Mongoose save of a Product document: the schema validator of
src/models/Product.js rejects a negative stock (min 0). -/
def saveProduct (p : Product) : Option Product :=
  if p.stock < 0 then none else some p

/-- Mongoose save of a DealerRequest document: the schema validator of
src/models/DealerRequest.js rejects strips below 1 (min 1). -/
def saveDealerRequest (r : DealerRequest) : Option DealerRequest :=
  if r.strips < 1 then none else some r

/-- Mongoose save of a DealerStock document, src/models/DealerStock.js
lines 14-70: the schema validators (min 0 on totalStrips,
allocatedStrips and availableStrips) run first, then the pre-save hook
recomputes availableStrips as totalStrips - allocatedStrips and rejects
the save when the recomputed value is negative. -/
def saveDealerStock (l : DealerStock) : Option DealerStock :=
  if l.totalStrips < 0 ∨ l.allocatedStrips < 0 ∨ l.availableStrips < 0 then
    none
  else
    let avail := l.totalStrips - l.allocatedStrips
    if avail < 0 then none
    else some { l with availableStrips := avail }

/-- Mongoose save of a StockAllocation document: the schema validator of
src/models/StockAllocation.js rejects strips below 1 (min 1). -/
def saveStockAllocation (a : StockAllocation) : Option StockAllocation :=
  if a.strips < 1 then none else some a

/-- The persisted collections the embedded core reads and writes, plus
the id/timestamp counter. -/
structure SysState where
  products : List Product
  requests : List DealerRequest
  lots : List DealerStock
  allocs : List StockAllocation
  nextId : Nat
deriving Repr, DecidableEq

/-- Outcome of a route handler, as the HTTP layer distinguishes them:
ok (2xx), validation / bad request (400), not found (404), forbidden
(403), state conflict (400 with a lifecycle message), insufficient
stock (400 reporting available and requested amounts), and internal
(500: a thrown mongoose validation error or similar). -/
inductive ApiResult where
  | ok
  | validation
  | notFound
  | forbidden
  | stateError
  | insufficientStock (available requested : Rat)
  | internal
deriving Repr, DecidableEq

/-- Product.findById. -/
def findProduct (s : SysState) (pid : Nat) : Option Product :=
  s.products.find? (fun p => p.id == pid)

/-- DealerRequest.findById. -/
def findRequest (s : SysState) (rid : Nat) : Option DealerRequest :=
  s.requests.find? (fun r => r.id == rid)

/-- Write-back of a saved Product document into the collection. -/
def updateProduct (s : SysState) (p : Product) : SysState :=
  { s with products := s.products.map (fun q => if q.id == p.id then p else q) }

/-- Write-back of a saved DealerRequest document into the collection. -/
def updateRequest (s : SysState) (r : DealerRequest) : SysState :=
  { s with requests := s.requests.map (fun q => if q.id == r.id then r else q) }

/-- Write-back of a saved DealerStock document into the collection. -/
def updateLot (s : SysState) (l : DealerStock) : SysState :=
  { s with lots := s.lots.map (fun q => if q.id == l.id then l else q) }

/-- Create Dealer Request, src/unnamed/part_004 lines 97-172
(router.post). Checks strips (a number below 1 is rejected), the
product existence, and optimistically the central stock, then persists
a fresh pending/pending request. Nothing else is mutated. -/
def submitReq (s : SysState) (dealerId pid : Nat) (strips : Rat) :
    ApiResult × SysState :=
  if strips < 1 then (.validation, s)
  else
    match findProduct s pid with
    | none => (.notFound, s)
    | some p =>
      if p.stock < strips then (.insufficientStock p.stock strips, s)
      else
        let r : DealerRequest :=
          { id := s.nextId, dealer := dealerId, product := pid,
            strips := strips, status := .pending, paymentStatus := .pending,
            receiptImage := none, paymentVerifiedBy := none,
            processedBy := none, notes := "" }
        match saveDealerRequest r with
        | none => (.internal, s)
        | some r1 =>
          (.ok, { s with requests := s.requests ++ [r1],
                         nextId := s.nextId + 1 })

/-- Upload Payment Receipt, src/unnamed/part_004 lines 357-430
(router.put upload-receipt). Checks, in route order: the request
exists, the caller owns it, its status is pending, and a file is
present; then stores the receipt reference and sets paymentStatus to
paid. The route never inspects the current paymentStatus. -/
def uploadReceipt (s : SysState) (rid callerId : Nat) (file : Option Nat) :
    ApiResult × SysState :=
  match findRequest s rid with
  | none => (.notFound, s)
  | some r =>
    if r.dealer ≠ callerId then (.forbidden, s)
    else if r.status ≠ .pending then (.stateError, s)
    else
      match file with
      | none => (.validation, s)
      | some img =>
        let r1 := { r with receiptImage := some img,
                           paymentStatus := PaymentStatus.paid }
        match saveDealerRequest r1 with
        | none => (.internal, s)
        | some r2 => (.ok, updateRequest s r2)

/-- Verify Payment, src/unnamed/part_004 lines 433-484. Only a paid
receipt can be verified. -/
def verifyPayment (s : SysState) (rid adminId : Nat) (notes : String) :
    ApiResult × SysState :=
  match findRequest s rid with
  | none => (.notFound, s)
  | some r =>
    if r.paymentStatus ≠ .paid then (.stateError, s)
    else
      let r1 := { r with paymentStatus := PaymentStatus.verified,
                         paymentVerifiedBy := some adminId, notes := notes }
      match saveDealerRequest r1 with
      | none => (.internal, s)
      | some r2 => (.ok, updateRequest s r2)

/-- Reject Payment, src/unnamed/part_004 lines 487-539. Only a paid
receipt can be rejected; the receipt reference is cleared so the dealer
can upload a new one. -/
def rejectPayment (s : SysState) (rid adminId : Nat) (notes : String) :
    ApiResult × SysState :=
  match findRequest s rid with
  | none => (.notFound, s)
  | some r =>
    if r.paymentStatus ≠ .paid then (.stateError, s)
    else
      let r1 := { r with paymentStatus := PaymentStatus.rejected,
                         paymentVerifiedBy := some adminId,
                         receiptImage := none, notes := notes }
      match saveDealerRequest r1 with
      | none => (.internal, s)
      | some r2 => (.ok, updateRequest s r2)

/-- Approve Request, src/unnamed/part_004 lines 542-639. Route order:
the request must exist and be pending, its payment must be verified,
and the populated product must cover the requested strips (a missing
product would make the stock check throw, hence internal). On the
success path the product stock is decremented and saved first, the
request is marked approved and saved next, and finally the dealer
stock entry for (dealer, product, sourceRequest) is either updated in
place (totalStrips grows by the approved strips) when one already
exists, or freshly created with allocatedStrips 0. A save rejected by
schema validation throws, leaving the earlier writes in place. -/
def approveReq (s : SysState) (rid adminId : Nat) (notes : String) :
    ApiResult × SysState :=
  match findRequest s rid with
  | none => (.notFound, s)
  | some r =>
    if r.status ≠ .pending then (.stateError, s)
    else if r.paymentStatus ≠ .verified then (.stateError, s)
    else
      match findProduct s r.product with
      | none => (.internal, s)
      | some p =>
        if p.stock < r.strips then
          (.insufficientStock p.stock r.strips, s)
        else
          match saveProduct { p with stock := p.stock - r.strips } with
          | none => (.internal, s)
          | some p1 =>
            let s1 := updateProduct s p1
            let r1 := { r with status := RequestStatus.approved,
                               processedBy := some adminId, notes := notes }
            match saveDealerRequest r1 with
            | none => (.internal, s1)
            | some r2 =>
              let s2 := updateRequest s1 r2
              match s2.lots.find? (fun l =>
                  l.dealer == r.dealer && l.product == r.product &&
                  l.sourceRequest == r.id) with
              | some l =>
                let l1 := { l with
                  totalStrips := l.totalStrips + r.strips,
                  availableStrips :=
                    l.totalStrips + r.strips - l.allocatedStrips }
                match saveDealerStock l1 with
                | none => (.internal, s2)
                | some l2 => (.ok, updateLot s2 l2)
              | none =>
                let l1 : DealerStock :=
                  { id := s2.nextId, dealer := r.dealer, product := r.product,
                    totalStrips := r.strips, allocatedStrips := 0,
                    availableStrips := r.strips, sourceRequest := r.id,
                    createdAt := s2.nextId }
                match saveDealerStock l1 with
                | none => (.internal, s2)
                | some l2 =>
                  (.ok, { s2 with lots := s2.lots ++ [l2],
                                  nextId := s2.nextId + 1 })

/-- Cancel Request, src/unnamed/part_004 lines 642-692. Only a pending
request can be cancelled; the route touches no product stock, no lot
and no allocation. -/
def cancelReq (s : SysState) (rid adminId : Nat) (notes : String) :
    ApiResult × SysState :=
  match findRequest s rid with
  | none => (.notFound, s)
  | some r =>
    if r.status ≠ .pending then (.stateError, s)
    else
      let r1 := { r with status := RequestStatus.cancelled,
                         processedBy := some adminId, notes := notes }
      match saveDealerRequest r1 with
      | none => (.internal, s)
      | some r2 => (.ok, updateRequest s r2)

/-- Insertion of a lot into a list sorted by createdAt ascending. -/
def insertByCreatedAt (l : DealerStock) :
    List DealerStock → List DealerStock
  | [] => [l]
  | x :: xs =>
    if l.createdAt < x.createdAt then l :: x :: xs
    else x :: insertByCreatedAt l xs

/-- The Mongo query sort (createdAt ascending) applied to the fetched
dealer stocks, src/unnamed/part_008 line 204. -/
def sortByCreatedAt : List DealerStock → List DealerStock
  | [] => []
  | x :: xs => insertByCreatedAt x (sortByCreatedAt xs)

/-- Outcome of the allocation walk of src/unnamed/part_008 lines
210-237: either the loop ran to completion, yielding the final
remaining quantity together with the allocation records created and
the stock documents updated during the walk in walk order, or a save
threw mid-walk, leaving the state persisted so far. -/
inductive WalkResult where
  | done (s : SysState) (remaining : Rat) (created : List StockAllocation)
         (updated : List DealerStock)
  | thrown (s : SysState)
deriving Repr, DecidableEq

/-- The for-loop of src/unnamed/part_008 lines 210-237 over the sorted
stock snapshot: stop once nothing remains; skip stocks with no
availability; otherwise allocate the minimum of the availability and
the remainder, persist the new StockAllocation, bump the stock's
allocatedStrips, recompute its availableStrips and persist it. Each
persisted write lands in the threaded state immediately, so a save
rejected by schema validation aborts the walk with the earlier writes
kept. -/
def allocWalk (dealerId salesmanId pid : Nat) (notes : String) :
    List DealerStock → Rat → SysState → WalkResult
  | [], remaining, s => .done s remaining [] []
  | stock :: rest, remaining, s =>
    if remaining ≤ 0 then .done s remaining [] []
    else if 0 < stock.availableStrips then
      let toAllocate := min stock.availableStrips remaining
      let alloc : StockAllocation :=
        { id := s.nextId, dealer := dealerId, salesman := salesmanId,
          product := pid, strips := toAllocate, dealerStock := stock.id,
          notes := notes }
      match saveStockAllocation alloc with
      | none => .thrown s
      | some a =>
        let s1 : SysState :=
          { s with allocs := s.allocs ++ [a], nextId := s.nextId + 1 }
        let stock1 := { stock with
          allocatedStrips := stock.allocatedStrips + toAllocate,
          availableStrips :=
            stock.totalStrips - (stock.allocatedStrips + toAllocate) }
        match saveDealerStock stock1 with
        | none => .thrown s1
        | some st =>
          let s2 := updateLot s1 st
          match allocWalk dealerId salesmanId pid notes rest
              (remaining - toAllocate) s2 with
          | .thrown s3 => .thrown s3
          | .done s3 r3 created updated =>
            .done s3 r3 (a :: created) (st :: updated)
    else allocWalk dealerId salesmanId pid notes rest remaining s

/-- The rollback loop of src/unnamed/part_008 lines 242-246: for every
stock document updated during the walk, subtract the TOTAL quantity
allocated in this call (strips minus the final remainder) from its
allocatedStrips — not the portion that particular stock received —
recompute availableStrips and save. A save rejected by schema
validation throws (second component false), keeping the writes made so
far and skipping the rest of the loop. -/
def rollbackLoop (total : Rat) :
    List DealerStock → SysState → SysState × Bool
  | [], s => (s, true)
  | st :: rest, s =>
    let st1 := { st with
      allocatedStrips := st.allocatedStrips - total,
      availableStrips := st.totalStrips - (st.allocatedStrips - total) }
    match saveDealerStock st1 with
    | none => (s, false)
    | some st2 => rollbackLoop total rest (updateLot s st2)

/-- Allocate Stock to Salesman, src/unnamed/part_008 lines 151-273
(router.post allocate). After the strips and product checks the
dealer's stocks for the product are fetched sorted by createdAt
ascending and walked oldest first. If anything remains unallocated
after the walk, the created StockAllocation records are deleted and
the rollback loop runs over the updated stocks, after which the route
reports the quantity that was available (strips minus the remainder)
and the quantity requested. The salesman-ownership lookup is identity
middleware outside the embedded core. -/
def allocateStock (s : SysState) (dealerId salesmanId pid : Nat)
    (strips : Rat) (notes : String) : ApiResult × SysState :=
  if strips < 1 then (.validation, s)
  else
    match findProduct s pid with
    | none => (.notFound, s)
    | some _ =>
      let snapshot := sortByCreatedAt (s.lots.filter (fun l =>
        l.dealer == dealerId && l.product == pid))
      match allocWalk dealerId salesmanId pid notes snapshot strips s with
      | .thrown s1 => (.internal, s1)
      | .done s1 remaining created updated =>
        if 0 < remaining then
          let createdIds := created.map (fun a => a.id)
          let s2 : SysState := { s1 with
            allocs := s1.allocs.filter (fun a => !(createdIds.contains a.id)) }
          match rollbackLoop (strips - remaining) updated s2 with
          | (s3, false) => (.internal, s3)
          | (s3, true) => (.insufficientStock (strips - remaining) strips, s3)
        else (.ok, s1)

/-- Sum of the strips of all allocation records referencing a lot. -/
def allocSumFor (s : SysState) (lotId : Nat) : Rat :=
  ((s.allocs.filter (fun a => a.dealerStock == lotId)).map
    (fun a => a.strips)).sum

/-- Lookup of a lot by id in the persisted state. -/
def findLot (s : SysState) (lotId : Nat) : Option DealerStock :=
  s.lots.find? (fun l => l.id == lotId)

/-! Concrete states used by the theorems below. -/

/-- Older lot of the failed-multi-lot-rollback scenario: 10 strips, none
allocated. -/
def rbLotA : DealerStock :=
  { id := 2, dealer := 10, product := 1, totalStrips := 10,
    allocatedStrips := 0, availableStrips := 10, sourceRequest := 100,
    createdAt := 0 }

/-- Newer lot of the failed-multi-lot-rollback scenario: 20 strips, none
allocated. -/
def rbLotB : DealerStock :=
  { id := 3, dealer := 10, product := 1, totalStrips := 20,
    allocatedStrips := 0, availableStrips := 20, sourceRequest := 101,
    createdAt := 1 }

/-- Ledger before the infeasible allocation: dealer 10 holds two lots of
product 1 with 30 strips available in total, and no allocation records. -/
def rbState : SysState :=
  { products := [{ id := 1, stock := 0 }], requests := [],
    lots := [rbLotA, rbLotB], allocs := [], nextId := 4 }

/-- Older lot of the FIFO scenario: 10 strips available. -/
def fifoLotA : DealerStock :=
  { id := 2, dealer := 10, product := 1, totalStrips := 10,
    allocatedStrips := 0, availableStrips := 10, sourceRequest := 100,
    createdAt := 0 }

/-- Newer lot of the FIFO scenario: 25 strips available. -/
def fifoLotB : DealerStock :=
  { id := 3, dealer := 10, product := 1, totalStrips := 25,
    allocatedStrips := 0, availableStrips := 25, sourceRequest := 101,
    createdAt := 1 }

/-- Ledger of the FIFO scenario before allocating 30 strips. -/
def fifoState : SysState :=
  { products := [{ id := 1, stock := 0 }], requests := [],
    lots := [fifoLotA, fifoLotB], allocs := [], nextId := 4 }

/-- Allocation record the FIFO walk creates against the older lot. -/
def fifoAllocA : StockAllocation :=
  { id := 4, dealer := 10, salesman := 7, product := 1, strips := 10,
    dealerStock := 2, notes := "" }

/-- Allocation record the FIFO walk creates against the newer lot. -/
def fifoAllocB : StockAllocation :=
  { id := 5, dealer := 10, salesman := 7, product := 1, strips := 20,
    dealerStock := 3, notes := "" }

/-- The older lot after the FIFO walk: fully drained. -/
def fifoLotA2 : DealerStock :=
  { fifoLotA with allocatedStrips := 10, availableStrips := 0 }

/-- The newer lot after the FIFO walk: 20 of 25 strips taken. -/
def fifoLotB2 : DealerStock :=
  { fifoLotB with allocatedStrips := 20, availableStrips := 5 }

/-- Persisted state after the FIFO walk completed. -/
def fifoStateOut : SysState :=
  { products := [{ id := 1, stock := 0 }], requests := [],
    lots := [fifoLotA2, fifoLotB2], allocs := [fifoAllocA, fifoAllocB],
    nextId := 6 }

/-- Lot that already exists for source request 100 in the
retried-approval scenario. -/
def dupLot : DealerStock :=
  { id := 2, dealer := 10, product := 1, totalStrips := 10,
    allocatedStrips := 3, availableStrips := 7, sourceRequest := 100,
    createdAt := 0 }

/-- Pending, payment-verified request whose source already has a lot. -/
def dupReq : DealerRequest :=
  { id := 100, dealer := 10, product := 1, strips := 7,
    status := .pending, paymentStatus := .verified,
    receiptImage := some 9, paymentVerifiedBy := some 99,
    processedBy := none, notes := "" }

/-- State of the retried-approval scenario: plenty of central stock and
an existing lot for the request being approved. -/
def dupState : SysState :=
  { products := [{ id := 1, stock := 50 }], requests := [dupReq],
    lots := [dupLot], allocs := [], nextId := 5 }

/-- Pending request whose payment is already verified, owned by dealer
10, used for the receipt re-upload scenario. -/
def verReq : DealerRequest :=
  { id := 100, dealer := 10, product := 1, strips := 7,
    status := .pending, paymentStatus := .verified,
    receiptImage := some 9, paymentVerifiedBy := some 99,
    processedBy := none, notes := "" }

/-- State of the receipt re-upload scenario. -/
def verState : SysState :=
  { products := [{ id := 1, stock := 50 }], requests := [verReq],
    lots := [], allocs := [], nextId := 5 }

/-- Pending request with a merely paid (not verified) payment. -/
def paidReq : DealerRequest :=
  { id := 60, dealer := 10, product := 1, strips := 7,
    status := .pending, paymentStatus := .paid,
    receiptImage := some 9, paymentVerifiedBy := none,
    processedBy := none, notes := "" }

/-- State with sufficient stock but an unverified payment. -/
def paidState : SysState :=
  { products := [{ id := 1, stock := 100 }], requests := [paidReq],
    lots := [], allocs := [], nextId := 61 }

/-- Pending, verified request used for the approval-effects scenario. -/
def apprReq : DealerRequest :=
  { id := 60, dealer := 10, product := 1, strips := 7,
    status := .pending, paymentStatus := .verified,
    receiptImage := some 9, paymentVerifiedBy := some 99,
    processedBy := none, notes := "" }

/-- State used for the approval-effects scenario: 50 strips of central
stock, no lots yet. -/
def apprState : SysState :=
  { products := [{ id := 1, stock := 50 }], requests := [apprReq],
    lots := [], allocs := [], nextId := 61 }

/-- Pending request used for the cancel scenario. -/
def cancReq : DealerRequest :=
  { id := 70, dealer := 10, product := 1, strips := 7,
    status := .pending, paymentStatus := .paid,
    receiptImage := some 9, paymentVerifiedBy := none,
    processedBy := none, notes := "" }

/-- State used for the cancel scenario. -/
def cancState : SysState :=
  { products := [{ id := 1, stock := 50 }], requests := [cancReq],
    lots := [], allocs := [], nextId := 71 }

/-- Already-approved request used for the cancel-after-approve
scenario. -/
def apprdReq : DealerRequest :=
  { id := 70, dealer := 10, product := 1, strips := 7,
    status := .approved, paymentStatus := .verified,
    receiptImage := some 9, paymentVerifiedBy := some 99,
    processedBy := some 99, notes := "" }

/-- State holding an already-approved request. -/
def apprdState : SysState :=
  { products := [{ id := 1, stock := 50 }], requests := [apprdReq],
    lots := [], allocs := [], nextId := 71 }

/-- Initial state of the fractional-quantity scenario: one product with
10 strips of central stock. -/
def fracStart : SysState :=
  { products := [{ id := 1, stock := 10 }], requests := [], lots := [],
    allocs := [], nextId := 50 }

/-- After dealer 77 submits a request for 2.5 strips. -/
def fracS1 : SysState := (submitReq fracStart 77 1 (5 / 2)).2

/-- After the dealer uploads a receipt for it. -/
def fracS2 : SysState := (uploadReceipt fracS1 50 77 (some 9)).2

/-- After admin 99 verifies the payment. -/
def fracS3 : SysState := (verifyPayment fracS2 50 99 "").2

/-- After admin 99 approves the 2.5-strip request. -/
def fracS4 : SysState := (approveReq fracS3 50 99 "").2

/-- A well-formed lot: 4 of 10 strips allocated. -/
def wfLot : DealerStock :=
  { id := 5, dealer := 10, product := 1, totalStrips := 10,
    allocatedStrips := 4, availableStrips := 6, sourceRequest := 100,
    createdAt := 0 }

/-- An ill-formed lot holding a negative allocated count, as the buggy
multi-lot rollback produces. -/
def negLot : DealerStock :=
  { id := 5, dealer := 10, product := 1, totalStrips := 10,
    allocatedStrips := -1, availableStrips := 11, sourceRequest := 100,
    createdAt := 0 }

/-- State after approving the pending verified request of the
approval-effects scenario: stock down by 7, one fresh lot of 7. -/
def apprOutState : SysState :=
  { products := [{ id := 1, stock := 43 }],
    requests := [{ apprReq with
                   status := .approved, processedBy := some 99 }],
    lots := [{ id := 61, dealer := 10, product := 1, totalStrips := 7,
               allocatedStrips := 0, availableStrips := 7,
               sourceRequest := 60, createdAt := 61 }],
    allocs := [], nextId := 62 }

/-!
Theorems. Each claim-level theorem carries the claim id in its doc
comment.
-/

/-- C1: an allocation of 1000 strips against two lots holding 10 and
20 available strips exhausts the lots with 970 remaining. The claimed
compensating rollback then has to restore both lots to allocatedStrips
0; instead the route subtracts the TOTAL allocated quantity (30) from
each touched lot, the first save is rejected by schema validation
(allocated would be -20), the route answers 500 (internal) rather than
the claimed InsufficientStockError, and the persisted lots keep
allocatedStrips 10 and 20 while every allocation record of the call
has already been deleted. The ledger after the failed call is NOT the
ledger before it. -/
theorem allocate_failed_rollback_corrupts_ledger :
    (allocateStock rbState 10 7 1 1000 "").1 = .internal ∧
    ((allocateStock rbState 10 7 1 1000 "").2.lots.map
      fun l => l.allocatedStrips) = [10, 20] ∧
    (allocateStock rbState 10 7 1 1000 "").2.allocs = [] := by
  with_unfolding_all decide

/-- C2: after the failed multi-lot allocation of the C1 scenario, lot 2
has allocatedStrips 10 while the sum of the strips of all allocation
records referencing it is 0, so the sum-of-allocations invariant does
not survive every sequence of allocate calls. -/
theorem allocation_sum_invariant_broken_by_failed_rollback :
    ∃ l, findLot (allocateStock rbState 10 7 1 1000 "").2 2 = some l ∧
      allocSumFor (allocateStock rbState 10 7 1 1000 "").2 2 ≠
        l.allocatedStrips := by
  refine ⟨{ rbLotA with allocatedStrips := 10, availableStrips := 0 },
    ?_, ?_⟩ <;> with_unfolding_all decide

/-- C3 counterexample: approving a request whose source request already
has a lot does NOT fail: the approval returns ok, the existing lot is
modified in place (totalStrips 10 grows to 17), and no second lot
appears — refuting the claimed DuplicateError guard. -/
theorem approve_existing_lot_no_duplicate_error :
    (approveReq dupState 100 99 "").1 = .ok ∧
    findLot (approveReq dupState 100 99 "").2 2 =
      some { dupLot with totalStrips := 17, availableStrips := 14 } ∧
    (approveReq dupState 100 99 "").2.lots.length = 1 := by
  with_unfolding_all decide

/-- C3 amended: when a lot already exists for the exact (dealer,
product, sourceRequest) triple of the request being approved, approval
succeeds, creates no new lot, and instead adds the approved strips to
the existing lot's totalStrips, recomputing availableStrips; no
DuplicateError is raised. -/
theorem approve_merges_lot_for_same_source_request
    (p : Product) (r : DealerRequest) (l : DealerStock)
    (A : List StockAllocation) (n adminId : Nat) (notes : String)
    (hPid : p.id = r.product)
    (hStatus : r.status = .pending)
    (hPay : r.paymentStatus = .verified)
    (hStrips : 1 ≤ r.strips)
    (hStock : r.strips ≤ p.stock)
    (hD : l.dealer = r.dealer) (hP2 : l.product = r.product)
    (hSrc : l.sourceRequest = r.id)
    (hA0 : 0 ≤ l.allocatedStrips)
    (hAT : l.allocatedStrips ≤ l.totalStrips) :
    approveReq ⟨[p], [r], [l], A, n⟩ r.id adminId notes =
      (.ok, ⟨[{ p with stock := p.stock - r.strips }],
             [{ r with status := RequestStatus.approved,
                       processedBy := some adminId, notes := notes }],
             [{ l with totalStrips := l.totalStrips + r.strips,
                       availableStrips :=
                         l.totalStrips + r.strips - l.allocatedStrips }],
             A, n⟩) := by
  have h1 : ¬ (p.stock < r.strips) := not_lt.mpr hStock
  have h2 : ¬ (p.stock - r.strips < 0) := by rw [not_lt]; linarith
  have h3 : ¬ (r.strips < 1) := not_lt.mpr hStrips
  have h4 : ¬ (l.totalStrips + r.strips < 0) := by rw [not_lt]; linarith
  have h5 : ¬ (l.allocatedStrips < 0) := not_lt.mpr hA0
  have h6 : ¬ (l.totalStrips + r.strips - l.allocatedStrips < 0) := by
    rw [not_lt]; linarith
  simp [approveReq, findRequest, findProduct, List.find?, saveProduct,
    saveDealerRequest, saveDealerStock, updateProduct, updateRequest,
    updateLot, hStatus, hPay, hPid, hD, hP2, hSrc, h1, h2, h3, h4, h5, h6]

/-- C3 amended, witness: the merge theorem applied to the concrete
retried-approval state: lot 2 ends with totalStrips 17 and no second
lot. -/
theorem approve_merges_lot_for_same_source_request_witness :
    approveReq dupState 100 99 "" =
      (.ok, ⟨[{ id := 1, stock := 43 }],
             [{ dupReq with status := RequestStatus.approved,
                            processedBy := some 99 }],
             [{ dupLot with totalStrips := 17, availableStrips := 14 }],
             [], 5⟩) := by
  have h := approve_merges_lot_for_same_source_request
    { id := 1, stock := 50 } dupReq dupLot [] 5 99 "" rfl rfl rfl
    (by norm_num [dupReq]) (by norm_num [dupReq]) rfl rfl rfl
    (by norm_num [dupLot]) (by norm_num [dupLot])
  exact h.trans (by with_unfolding_all decide)

/-- C4 counterexample: a receipt upload on a request whose
paymentStatus is verified succeeds (the route checks only existence,
ownership, pending status and file presence) and moves paymentStatus
from verified back to paid — refuting the claimed StateError. -/
theorem upload_receipt_on_verified_succeeds :
    (uploadReceipt verState 100 10 (some 55)).1 = .ok ∧
    ((findRequest (uploadReceipt verState 100 10 (some 55)).2 100).map
      fun r => r.paymentStatus) = some .paid := by
  with_unfolding_all decide

/-- C4 amended: attachReceipt succeeds whenever the request exists, the
caller owns it, its status is pending, and an image is provided,
regardless of the current paymentStatus (which is never inspected); it
stores the receipt and sets paymentStatus to paid, so even a verified
payment moves back to paid. -/
theorem upload_receipt_checks_only_pending_and_owner
    (s : SysState) (rid callerId img : Nat)
    (r : DealerRequest) (hFind : findRequest s rid = some r)
    (hOwner : r.dealer = callerId) (hStatus : r.status = .pending)
    (hStrips : 1 ≤ r.strips) :
    uploadReceipt s rid callerId (some img) =
      (.ok, updateRequest s
        { r with receiptImage := some img,
                 paymentStatus := PaymentStatus.paid }) := by
  unfold uploadReceipt
  rw [hFind]
  simp [hOwner, hStatus, saveDealerRequest, not_lt.mpr hStrips]

/-- C4 amended, witness: the upload theorem applied to a request whose
payment is already verified. -/
theorem upload_receipt_checks_only_pending_and_owner_witness :
    uploadReceipt verState 100 10 (some 55) =
      (.ok, { verState with
              requests := [{ verReq with
                             receiptImage := some 55,
                             paymentStatus := PaymentStatus.paid }] }) := by
  have h := upload_receipt_checks_only_pending_and_owner
    verState 100 10 55 verReq rfl rfl rfl (by norm_num [verReq])
  exact h.trans (by with_unfolding_all decide)

/-- Helper: a walk entered with a non-positive remainder creates no
allocation records and updates no stocks. -/
theorem allocWalk_done_of_nonpos (d sm pid : Nat) (notes : String)
    (stocks : List DealerStock) (q : Rat) (s s2 : SysState) (r2 : Rat)
    (c : List StockAllocation) (u : List DealerStock)
    (hq : q ≤ 0)
    (hw : allocWalk d sm pid notes stocks q s = .done s2 r2 c u) :
    c = [] ∧ u = [] := by
  cases stocks with
  | nil =>
    simp only [allocWalk] at hw
    injection hw with h1 h2 h3 h4
    exact ⟨h3.symm, h4.symm⟩
  | cons x rest =>
    simp only [allocWalk, if_pos hq] at hw
    injection hw with h1 h2 h3 h4
    exact ⟨h3.symm, h4.symm⟩

/-- C5: the allocation walk consumes lots strictly in list order — the
order of the fetched snapshot, which the route sorts by creation time
ascending. If, for a split of the walked lots into older part, a pivot
lot st, and newer part, some created allocation references a lot of
the newer part, then the pivot lot ends the walk with availableStrips
0: either it started drained, or its updated document is fully
drained. Lots hold the available = total - allocated invariant with a
non-negative availability, and carry distinct ids. -/
theorem allocate_walk_consumes_oldest_first
    (dealerId salesmanId pid : Nat) (notes : String)
    (stocks : List DealerStock) (q : Rat) (s s2 : SysState) (r2 : Rat)
    (created : List StockAllocation) (updated : List DealerStock)
    (hInv : ∀ st ∈ stocks,
      st.availableStrips = st.totalStrips - st.allocatedStrips ∧
      0 ≤ st.availableStrips)
    (hNodup : stocks.Pairwise (fun a b => a.id ≠ b.id))
    (hw : allocWalk dealerId salesmanId pid notes stocks q s =
      .done s2 r2 created updated) :
    ∀ xs st ys, stocks = xs ++ st :: ys →
      (∃ a ∈ created, ∃ l ∈ ys, a.dealerStock = l.id) →
      st.availableStrips = 0 ∨
        ∃ u ∈ updated, u.id = st.id ∧ u.availableStrips = 0 := by
  induction stocks generalizing q s s2 r2 created updated with
  | nil =>
    intro xs st ys hsplit htouch
    exact absurd hsplit (by simp)
  | cons st0 rest ih =>
    intro xs st ys hsplit htouch
    have hInv0 := hInv st0 (List.mem_cons_self st0 rest)
    have hInvRest : ∀ st2 ∈ rest,
        st2.availableStrips = st2.totalStrips - st2.allocatedStrips ∧
        0 ≤ st2.availableStrips :=
      fun st2 h2 => hInv st2 (List.mem_cons_of_mem st0 h2)
    have hNodup0 := (List.pairwise_cons.mp hNodup).1
    have hNodupRest := (List.pairwise_cons.mp hNodup).2
    simp only [allocWalk] at hw
    by_cases hq0 : q ≤ 0
    · rw [if_pos hq0] at hw
      injection hw with h1 h2 h3 h4
      rcases htouch with ⟨a, ha, _⟩
      rw [← h3] at ha
      exact absurd ha (List.not_mem_nil a)
    · rw [if_neg hq0] at hw
      by_cases hav : 0 < st0.availableStrips
      · rw [if_pos hav] at hw
        split at hw
        · exact absurd hw (by simp)
        · next a hsa =>
          split at hw
          · exact absurd hw (by simp)
          · next st1 hsd =>
            split at hw
            · exact absurd hw (by simp)
            · next s3 r3 c u hrec =>
              injection hw with h1 h2 h3 h4
              have hsa2 : a =
                  { id := s.nextId, dealer := dealerId,
                    salesman := salesmanId, product := pid,
                    strips := min st0.availableStrips q,
                    dealerStock := st0.id, notes := notes } := by
                unfold saveStockAllocation at hsa
                split at hsa
                · exact absurd hsa (by simp)
                · injection hsa with h; exact h.symm
              have hsd2 : st1.id = st0.id ∧ st1.availableStrips =
                  st0.totalStrips -
                    (st0.allocatedStrips + min st0.availableStrips q) := by
                unfold saveDealerStock at hsd
                split at hsd
                · exact absurd hsd (by simp)
                · simp only [] at hsd
                  split at hsd
                  · exact absurd hsd (by simp)
                  · injection hsd with h
                    subst h
                    exact ⟨rfl, rfl⟩
              cases xs with
              | nil =>
                simp only [List.nil_append] at hsplit
                injection hsplit with hst hys
                subst hst
                subst hys
                rcases htouch with ⟨a2, ha2, l, hl, hal⟩
                rw [← h3] at ha2
                rcases List.mem_cons.mp ha2 with rfl | ha2c
                · -- the head allocation cannot reference a strictly
                  -- newer lot: ids are distinct
                  rw [hsa2] at hal
                  have hid : st0.id = l.id := by simpa using hal
                  exact absurd hid (hNodup0 l hl)
                · -- an allocation was created against a newer lot, so
                  -- the remainder after st0 was positive: st0 drained
                  have hcne : c ≠ [] := List.ne_nil_of_mem ha2c
                  have hqrem : ¬ (q - min st0.availableStrips q ≤ 0) := by
                    intro hle
                    rcases allocWalk_done_of_nonpos _ _ _ _ _ _ _ _ _ _ _
                      hle hrec with ⟨hc0, _⟩
                    exact hcne hc0
                  have hltq : st0.availableStrips < q := by
                    by_contra hge
                    rw [not_lt] at hge
                    exact hqrem (by rw [min_eq_right hge]; linarith)
                  have hmin : min st0.availableStrips q =
                      st0.availableStrips := min_eq_left (le_of_lt hltq)
                  refine Or.inr ⟨st1, ?_, hsd2.1, ?_⟩
                  · rw [← h4]; exact List.mem_cons_self st1 u
                  · rw [hsd2.2, hmin]
                    have := hInv0.1
                    linarith
              | cons x xs2 =>
                simp only [List.cons_append] at hsplit
                injection hsplit with hx hrest
                rcases htouch with ⟨a2, ha2, l, hl, hal⟩
                rw [← h3] at ha2
                rcases List.mem_cons.mp ha2 with rfl | ha2c
                · rw [hsa2] at hal
                  have hlrest : l ∈ rest := by
                    rw [hrest]
                    exact List.mem_append_right xs2
                      (List.mem_cons_of_mem st (by exact hl))
                  have hid : st0.id = l.id := by simpa using hal
                  exact absurd hid (hNodup0 l hlrest)
                · rcases ih (q - min st0.availableStrips q) _ _ _ _ _
                    hInvRest hNodupRest hrec xs2 st ys hrest
                    ⟨a2, ha2c, l, hl, hal⟩ with hz | ⟨u2, hu2, hid2, hz2⟩
                  · exact Or.inl hz
                  · refine Or.inr ⟨u2, ?_, hid2, hz2⟩
                    rw [← h4]
                    exact List.mem_cons_of_mem st1 hu2
      · rw [if_neg hav] at hw
        cases xs with
        | nil =>
          simp only [List.nil_append] at hsplit
          injection hsplit with hst hys
          subst hst
          exact Or.inl (le_antisymm (not_lt.mp hav) hInv0.2)
        | cons x xs2 =>
          simp only [List.cons_append] at hsplit
          injection hsplit with hx hrest
          exact ih q s s2 r2 created updated hInvRest hNodupRest hw
            xs2 st ys hrest htouch

/-- C5 witness: allocating 30 strips against lots with 10 and 25
available (oldest first) creates exactly the records of 10 and 20
strips, in that order, and the ordering theorem applied at this input
gives that the older lot was drained to 0 before the newer lot was
touched. -/
theorem allocate_walk_consumes_oldest_first_witness :
    allocWalk 10 7 1 "" [fifoLotA, fifoLotB] 30 fifoState =
      .done fifoStateOut 0 [fifoAllocA, fifoAllocB]
        [fifoLotA2, fifoLotB2] ∧
    fifoAllocA.strips = 10 ∧ fifoAllocB.strips = 20 ∧
    (fifoLotA.availableStrips = 0 ∨
      ∃ u ∈ [fifoLotA2, fifoLotB2], u.id = fifoLotA.id ∧
        u.availableStrips = 0) := by
  have hw : allocWalk 10 7 1 "" [fifoLotA, fifoLotB] 30 fifoState =
      .done fifoStateOut 0 [fifoAllocA, fifoAllocB]
        [fifoLotA2, fifoLotB2] := by
    with_unfolding_all decide
  refine ⟨hw, by with_unfolding_all decide, by with_unfolding_all decide,
    allocate_walk_consumes_oldest_first 10 7 1 "" [fifoLotA, fifoLotB]
      30 fifoState fifoStateOut 0 [fifoAllocA, fifoAllocB]
      [fifoLotA2, fifoLotB2] (by with_unfolding_all decide)
      (by with_unfolding_all decide) hw [] fifoLotA [fifoLotB] rfl
      ⟨fifoAllocB, by with_unfolding_all decide, fifoLotB,
        by with_unfolding_all decide, by with_unfolding_all decide⟩⟩

/-- C6: approving a pending, payment-verified request whose quantity is
covered by central stock and whose source request has no lot yet
decrements the product stock by exactly the requested strips, marks
the request approved, and appends exactly one fresh lot with
totalStrips equal to the request and allocatedStrips 0; a second
approve of the same request then fails with a state error and changes
nothing, so approval succeeds at most once per request. -/
theorem approve_effects_and_single_success
    (p : Product) (r : DealerRequest) (L : List DealerStock)
    (A : List StockAllocation) (n adminId adminId2 : Nat)
    (notes notes2 : String)
    (hPid : p.id = r.product)
    (hStatus : r.status = .pending)
    (hPay : r.paymentStatus = .verified)
    (hStrips : 1 ≤ r.strips)
    (hStock : r.strips ≤ p.stock)
    (hFresh : ∀ l ∈ L, ¬(l.dealer = r.dealer ∧ l.product = r.product ∧
      l.sourceRequest = r.id)) :
    approveReq ⟨[p], [r], L, A, n⟩ r.id adminId notes =
      (.ok, ⟨[{ p with stock := p.stock - r.strips }],
             [{ r with status := RequestStatus.approved,
                       processedBy := some adminId, notes := notes }],
             L ++ [{ id := n, dealer := r.dealer, product := r.product,
                     totalStrips := r.strips, allocatedStrips := 0,
                     availableStrips := r.strips, sourceRequest := r.id,
                     createdAt := n }],
             A, n + 1⟩) ∧
    approveReq ⟨[{ p with stock := p.stock - r.strips }],
             [{ r with status := RequestStatus.approved,
                       processedBy := some adminId, notes := notes }],
             L ++ [{ id := n, dealer := r.dealer, product := r.product,
                     totalStrips := r.strips, allocatedStrips := 0,
                     availableStrips := r.strips, sourceRequest := r.id,
                     createdAt := n }],
             A, n + 1⟩ r.id adminId2 notes2 =
      (.stateError, ⟨[{ p with stock := p.stock - r.strips }],
             [{ r with status := RequestStatus.approved,
                       processedBy := some adminId, notes := notes }],
             L ++ [{ id := n, dealer := r.dealer, product := r.product,
                     totalStrips := r.strips, allocatedStrips := 0,
                     availableStrips := r.strips, sourceRequest := r.id,
                     createdAt := n }],
             A, n + 1⟩) := by
  have h1 : ¬ (p.stock < r.strips) := not_lt.mpr hStock
  have h2 : ¬ (p.stock - r.strips < 0) := by rw [not_lt]; linarith
  have h3 : ¬ (r.strips < 1) := not_lt.mpr hStrips
  have h4 : ¬ (r.strips < 0) := by rw [not_lt]; linarith
  have h5 : ¬ (r.strips - 0 < 0) := by rw [not_lt]; linarith
  have hfind : L.find? (fun l => l.dealer == r.dealer &&
      l.product == r.product && l.sourceRequest == r.id) = none := by
    rw [List.find?_eq_none]
    intro l hl
    have := hFresh l hl
    simp only [Bool.and_eq_true, beq_iff_eq]
    tauto
  constructor
  · simp [approveReq, findRequest, findProduct, List.find?, saveProduct,
      saveDealerRequest, saveDealerStock, updateProduct, updateRequest,
      hStatus, hPay, hPid, h1, h2, h3, h4, h5, hfind]
  · simp [approveReq, findRequest, List.find?]

/-- C6 witness: the approval-effects theorem applied to the concrete
scenario (stock 50, request of 7): stock ends at 43, one lot of 7 is
created, and re-approving fails with a state error. -/
theorem approve_effects_and_single_success_witness :
    approveReq apprState 60 99 "" = (.ok, apprOutState) ∧
    approveReq apprOutState 60 98 "" = (.stateError, apprOutState) := by
  have h := approve_effects_and_single_success
    { id := 1, stock := 50 } apprReq [] [] 61 99 98 "" "" rfl rfl rfl
    (by norm_num [apprReq]) (by norm_num [apprReq]) (by simp)
  constructor
  · exact h.1.trans (by with_unfolding_all decide)
  · have h2 := h.2
    rw [show apprOutState =
      (⟨[{ ({ id := 1, stock := 50 } : Product) with
           stock := (50 : Rat) - apprReq.strips }],
        [{ apprReq with status := RequestStatus.approved,
                        processedBy := some 99, notes := "" }],
        [] ++ [{ id := 61, dealer := apprReq.dealer,
                 product := apprReq.product,
                 totalStrips := apprReq.strips, allocatedStrips := 0,
                 availableStrips := apprReq.strips,
                 sourceRequest := apprReq.id, createdAt := 61 }],
        [], 62⟩ : SysState) from by with_unfolding_all decide]
    exact h2.trans (by with_unfolding_all decide)

/-- C7: approving a pending request whose payment is not verified
fails with a state error and returns the state untouched, however much
central stock is available. -/
theorem approve_rejects_unverified_payment
    (s : SysState) (rid adminId : Nat) (notes : String)
    (r : DealerRequest) (hFind : findRequest s rid = some r)
    (hStatus : r.status = .pending)
    (hPay : r.paymentStatus ≠ .verified) :
    approveReq s rid adminId notes = (.stateError, s) := by
  unfold approveReq
  rw [hFind]
  simp [hStatus, hPay]

/-- C7 witness: a pending request with a merely paid payment and ample
stock is rejected and the state is unchanged. -/
theorem approve_rejects_unverified_payment_witness :
    approveReq paidState 60 99 "" = (.stateError, paidState) :=
  approve_rejects_unverified_payment paidState 60 99 "" paidReq rfl rfl
    (by simp [paidReq])

/-- C8: a DealerStock save that succeeds yields a document with
availableStrips equal to totalStrips minus allocatedStrips and with
allocatedStrips between 0 and totalStrips; a document violating the
bound is rejected by the save, never clamped. -/
theorem dealer_stock_save_invariant (l : DealerStock) :
    (∀ l2, saveDealerStock l = some l2 →
      l2.availableStrips = l2.totalStrips - l2.allocatedStrips ∧
      0 ≤ l2.allocatedStrips ∧ l2.allocatedStrips ≤ l2.totalStrips) ∧
    ((l.allocatedStrips < 0 ∨ l.totalStrips < l.allocatedStrips) →
      saveDealerStock l = none) := by
  constructor
  · intro l2 h
    unfold saveDealerStock at h
    split at h
    · exact absurd h (by simp)
    · next hval =>
      push_neg at hval
      simp only [] at h
      split at h
      · exact absurd h (by simp)
      · next hge =>
        cases h
        refine ⟨rfl, hval.2.1, ?_⟩
        simpa using not_lt.mp hge
  · intro hbad
    unfold saveDealerStock
    rcases hbad with hb | hb
    · rw [if_pos (Or.inr (Or.inl hb))]
    · split
      · rfl
      · next hval =>
        push_neg at hval
        rw [if_pos (by linarith)]

/-- C8 witness: the save invariant at a well-formed lot (4 of 10
allocated) and the rejection of a lot whose allocated count is
negative. -/
theorem dealer_stock_save_invariant_witness :
    (∃ l2, saveDealerStock wfLot = some l2 ∧
      l2.availableStrips = l2.totalStrips - l2.allocatedStrips ∧
      0 ≤ l2.allocatedStrips ∧ l2.allocatedStrips ≤ l2.totalStrips) ∧
    saveDealerStock negLot = none := by
  have hsave : saveDealerStock wfLot = some wfLot := by
    with_unfolding_all decide
  exact ⟨⟨wfLot, hsave, (dealer_stock_save_invariant wfLot).1 wfLot hsave⟩,
    (dealer_stock_save_invariant negLot).2
      (Or.inl (by norm_num [negLot]))⟩

/-- C9: cancelling a pending request returns ok, leaves products, lots
and allocation records exactly as they were, and only rewrites the
request to cancelled; cancelling a request that is not pending fails
with a state error and returns the state untouched. -/
theorem cancel_state_and_frame
    (s : SysState) (rid adminId : Nat) (notes : String)
    (r : DealerRequest) (hFind : findRequest s rid = some r)
    (hStrips : 1 ≤ r.strips) :
    (r.status = .pending →
      (cancelReq s rid adminId notes).1 = .ok ∧
      (cancelReq s rid adminId notes).2.products = s.products ∧
      (cancelReq s rid adminId notes).2.lots = s.lots ∧
      (cancelReq s rid adminId notes).2.allocs = s.allocs ∧
      (cancelReq s rid adminId notes).2.requests = s.requests.map
        (fun q => if q.id == r.id then
          { r with status := RequestStatus.cancelled,
                   processedBy := some adminId, notes := notes }
          else q)) ∧
    (r.status ≠ .pending →
      cancelReq s rid adminId notes = (.stateError, s)) := by
  constructor
  · intro hp
    unfold cancelReq
    rw [hFind]
    simp [hp, saveDealerRequest, not_lt.mpr hStrips, updateRequest]
  · intro hnp
    unfold cancelReq
    rw [hFind]
    simp [hnp]

/-- C9 witness: the cancel theorem applied to a concrete pending
request (everything but the request untouched) and to a concrete
already-approved request (state error, nothing changed). -/
theorem cancel_state_and_frame_witness :
    ((cancelReq cancState 70 99 "").1 = .ok ∧
      (cancelReq cancState 70 99 "").2.products = cancState.products ∧
      (cancelReq cancState 70 99 "").2.lots = cancState.lots ∧
      (cancelReq cancState 70 99 "").2.allocs = cancState.allocs ∧
      (cancelReq cancState 70 99 "").2.requests = cancState.requests.map
        (fun q => if q.id == cancReq.id then
          { cancReq with status := RequestStatus.cancelled,
                         processedBy := some 99, notes := "" }
          else q)) ∧
    cancelReq apprdState 70 99 "" = (.stateError, apprdState) := by
  constructor
  · exact (cancel_state_and_frame cancState 70 99 "" cancReq rfl
      (by norm_num [cancReq])).1 rfl
  · exact (cancel_state_and_frame apprdState 70 99 "" apprdReq rfl
      (by norm_num [apprdReq])).2 (by simp [apprdReq])

/-- C10: the strips validation of submit and allocate accepts any
number at least 1, including the fraction 2.5: the submit succeeds,
the created request carries 2.5 strips, approving it leaves central
stock at 7.5 and a lot of 2.5 strips, and allocating 1.5 of them to a
salesman succeeds and leaves the lot with 1.5 allocated strips. -/
theorem fractional_strips_flow_through :
    (submitReq fracStart 77 1 (5 / 2)).1 = .ok ∧
    ((findRequest fracS1 50).map fun r => r.strips) = some (5 / 2) ∧
    (approveReq fracS3 50 99 "").1 = .ok ∧
    ((findProduct fracS4 1).map fun p => p.stock) = some (15 / 2) ∧
    ((findLot fracS4 51).map fun l => l.totalStrips) = some (5 / 2) ∧
    (allocateStock fracS4 77 88 1 (3 / 2) "").1 = .ok ∧
    ((findLot (allocateStock fracS4 77 88 1 (3 / 2) "").2 51).map
      fun l => l.allocatedStrips) = some (3 / 2) := by
  with_unfolding_all decide

end FourMG
